import Mathlib

/-!
Verification of the 3scale-sync reconciliation engine.

Shallow embedding of the reconcilers in `sync.py`, the pre-flight validator in
`config.py`, and the entity resources under `resources/`.  Remote control-plane
interaction is modelled as an observed `RemoteState` snapshot plus a trace of
mutating operations (`Op`) that a reconciler run issues; HTTP responses to
mutations are assumed successful except where a claim is about response
handling (`Proxy.promote_response`).  Python exceptions are modelled as
`Option String` / `Except String` error results.
-/

namespace ThreeScaleSync

/-- Python `str.replace(old, new)` for the single-character replacements the
code performs: every occurrence of the character is replaced. -/
def replace_char (s : String) (old new : Char) : String :=
  ⟨s.data.map (fun c => if c = old then new else c)⟩

/-- Python `s.startswith(p)`. -/
def starts_with (s p : String) : Bool := p.data.isPrefixOf s.data

/-- Python `s.endswith(p)`. -/
def ends_with (s p : String) : Bool := p.data.isSuffixOf s.data

/-- Python `s.upper()` for the ASCII method names the code upper-cases. -/
def str_to_upper (s : String) : String := ⟨s.data.map Char.toUpper⟩

/-- Python `s[n:]`. -/
def str_drop (s : String) (n : Nat) : String := ⟨s.data.drop n⟩

/-- `shortName.replace('-', '_').replace(' ', '_')` — the stable-key derivation
used for products, backends and application plans. -/
def to_system_name (s : String) : String :=
  replace_char (replace_char s '-' '_') ' ' '_'

/-! ## Desired-state model (`config.py`) -/

/-- Mirror of `config.py` `ApplicationConfig`: `name`, `client_id` and
`client_secret` are optional (Python `None` default). -/
structure ApplicationConfig where
  account : String
  name : Option String := none
  client_id : Option String := none
  client_secret : Option String := none
deriving Repr, DecidableEq

/-- Mirror of `config.py` `BackendConfig`. -/
structure BackendConfig where
  id : String
  privateBaseURL : String
  path : String
deriving Repr, DecidableEq

/-- Mirror of `config.py` `MappingConfig`. -/
structure MappingConfig where
  method : String
  pattern : String
deriving Repr, DecidableEq

/-- Mirror of `config.py` `APIConfig`.  `oidcFlows` is a Python dict or `None`;
we model the dict as an association list. -/
structure APIConfig where
  publicBasePath : String
  authType : String
  issuerURL : Option String := none
  issuerType : Option String := none
  credentialsLocation : String
  oidcFlows : Option (List (String × Bool)) := none
deriving Repr, DecidableEq

/-- Mirror of `config.py` `ProductConfig`.  The OpenAPI file paths are replaced
by the parsed documents they denote (file loading in `parse_openapi_file` is
I/O outside the reconciliation logic); an absent `openAPIPath` is the empty
list of documents. -/
structure ProductConfig where
  name : String
  shortName : String
  description : Option String
  version : Nat
  api : APIConfig
  backends : List BackendConfig := []
  applications : List ApplicationConfig := []
  mappings : List MappingConfig := []
  policiesPath : Option String := none
deriving Repr, DecidableEq

/-! ## Observed remote entities -/

/-- A remote product (3scale service), as returned by `Product.fetch`. -/
structure Product where
  id : Nat
  name : String
  system_name : String
  description : Option String
deriving Repr, DecidableEq

/-- A remote backend, as returned by `Backend.fetch`. -/
structure Backend where
  id : Nat
  name : String
  system_name : String
  description : Option String
  private_endpoint : String
deriving Repr, DecidableEq

/-- A remote backend usage (join of product and backend at a mount path). -/
structure BackendUsage where
  id : Nat
  backend_id : Nat
  path : String
deriving Repr, DecidableEq

/-- A remote account, as returned by `Account.list`. -/
structure Account where
  id : Nat
  username : String
deriving Repr, DecidableEq

/-- A remote application, as returned by `Application.list`. -/
structure Application where
  id : Nat
  name : String
  service_id : Nat
  account_id : Nat
deriving Repr, DecidableEq

/-- A remote application plan, as returned by `ApplicationPlan.list` for its
service. -/
structure ApplicationPlan where
  id : Nat
  name : String
  system_name : String
  service_id : Nat
deriving Repr, DecidableEq

/-- A proxy mapping rule: desired ones are built with `id := 0` (the id is
server-assigned), observed ones carry their remote id. -/
structure ProxyMapping where
  id : Nat := 0
  http_method : String
  pattern : String
deriving Repr, DecidableEq

/-- The observed remote state a reconciliation run works against. -/
structure RemoteState where
  products : List Product := []
  backends : List Backend := []
  backend_usages : List BackendUsage := []
  accounts : List Account := []
  applications : List Application := []
  plans : List ApplicationPlan := []
  proxy_mappings : List ProxyMapping := []
deriving Repr, DecidableEq

/-- The mutating remote calls a reconciliation run can issue. -/
inductive Op where
  | createProduct (system_name : String)
  | updateProduct (id : Nat) (name : String) (description : Option String)
  | createBackend (system_name : String)
  | createBackendUsage (path : String)
  | createAccount (username : String)
  | deleteApplication (name : String)
  | createApplication (name : String)
  | createApplicationPlan (system_name : String)
  | deleteMapping (id : Nat)
  | createMapping (http_method : String) (pattern : String)
  | updateServiceAuth (authType : String)
  | patchProxy
  | updateOIDC
  | updatePolicies
  | promoteConfig
deriving Repr, DecidableEq

/-! ## Mapping reconciler (`sync.py` `sync_mappings`, lines 22-56) -/

/-- The inner loop of the deletion pass (`sync.py` lines 30-34):
`should_be_active` starts `True` and is set `False` by every active mapping
that does not equal the observed rule (`continue` skips only equal ones). -/
def should_be_active (active_mappings : List (String × String))
    (mapping : ProxyMapping) : Bool :=
  active_mappings.foldl
    (fun acc active_mapping =>
      if active_mapping == (mapping.http_method, mapping.pattern) then acc
      else false)
    true

/-- Mutating calls issued by `sync_mappings` for one product:
deletion pass over the observed rules, then the OpenAPI creation pass (which
first prefixes each pattern with `publicBasePath`), then the config-mapping
creation pass (patterns used verbatim).  Both creation passes check the
post-deletion server list (`existing_mappings`) for `(method, pattern)`
equality before creating. -/
def sync_mappings_ops (publicBasePath : String) (observed : List ProxyMapping)
    (proxy_mappings : List ProxyMapping)
    (configMappings : List MappingConfig) : List Op :=
  let active_mappings :=
    (proxy_mappings.map (fun m => (m.http_method, m.pattern))) ++
      (if configMappings.isEmpty then []
       else configMappings.map (fun m => (m.method, m.pattern)))
  let deleteOps :=
    (observed.filter (fun m => !(should_be_active active_mappings m))).map
      (fun m => Op.deleteMapping m.id)
  let existing_mappings := observed.filter (should_be_active active_mappings)
  let openapiOps := proxy_mappings.filterMap (fun m =>
    let pattern := publicBasePath ++ m.pattern
    if (existing_mappings.filter
          (fun e => e.http_method == m.http_method && e.pattern == pattern)).length > 0
    then none
    else some (Op.createMapping m.http_method pattern))
  let configOps :=
    if configMappings.isEmpty then []
    else configMappings.filterMap (fun mc =>
      if (existing_mappings.filter
            (fun e => e.http_method == mc.method && e.pattern == mc.pattern)).length > 0
      then none
      else some (Op.createMapping mc.method mc.pattern))
  deleteOps ++ openapiOps ++ configOps

/-! ## OpenAPI mapping extraction (`sync.py` `sync_product`, lines 104-129) -/

/-- The HTTP methods recognised when walking an OpenAPI document. -/
def valid_methods : List String :=
  ["get", "put", "post", "delete", "options", "head", "patch", "trace"]

/-- A parsed OpenAPI document, reduced to the fields `sync_product` reads:
the version string, the (swagger-2) `basePath`, and for each path the methods
defined on it. -/
structure OpenAPIDoc where
  version : String
  basePath : Option String := none
  paths : List (String × List String) := []
deriving Repr, DecidableEq

/-- Models `urllib.parse.urljoin(base, rel)` for the arguments `sync_product`
produces: `base` ends in `/` and `rel` is a path with its leading `/` already
stripped, so the join is concatenation. -/
def urljoin_rel (base rel : String) : String := base ++ rel

/-- The desired proxy mappings derived from one OpenAPI document
(`sync.py` lines 114-129): swagger-2 `basePath` (defaulting to `/`, forced to
end in `/`), methods filtered to `valid_methods` and upper-cased, and the
pattern `urljoin(api_base_path, path[1:]) + '$'`. -/
def extract_proxy_mappings (openapi : OpenAPIDoc) : List ProxyMapping :=
  let api_base_path :=
    match openapi.basePath with
    | some bp => if starts_with openapi.version "2." then bp else "/"
    | none => "/"
  let api_base_path :=
    if ends_with api_base_path "/" then api_base_path else api_base_path ++ "/"
  openapi.paths.flatMap (fun pd =>
    (pd.2.filter (fun m => valid_methods.contains m)).map (fun m =>
      { http_method := str_to_upper m,
        pattern := urljoin_rel api_base_path (str_drop pd.1 1) ++ "$" }))

/-! ## Backend reconciler (`sync.py` `sync_backends`, lines 241-258;
`resources/backend.py` `Backend.create`) -/

/-- Mutating calls (and raised error) for one `BackendRef`
(`backend_config`).  When the derived `system_name` is absent remotely,
`Backend.create` issues one create POST and `Product.update_backends` then
creates the usage join (a backend freshly created by this run has a
server-assigned id that the cached usage list cannot contain).  When it
already exists, `Backend.create(ignore_if_exists=False)` raises `ValueError`,
the `except` branch fetches the existing backend (a read) and then calls
`existing_backend.update(c, **dict(name=..., description=...,
private_endpoint=...))` — but `Backend.update` is declared
`def update(self, client)` (`backend.py` line 70) and accepts none of those
keyword arguments, so Python raises `TypeError` at the call site before any
request is sent: no update call is issued, the usage join is never
reconciled, and the error aborts the product sync (despite the preceding
`Backend ... exists, updating.` log line).  The unused `description` and
`backend_usages` parameters mirror the values the source passes into this
step. -/
def sync_one_backend_ops (environment : String) (description : Option String)
    (remote_backends : List Backend) (backend_usages : List BackendUsage)
    (backend_config : BackendConfig) : List Op × Option String :=
  let backend_name := environment ++ "_" ++ backend_config.id ++ "_backend"
  let system_name := to_system_name backend_name
  match remote_backends.find? (fun b => b.system_name == system_name) with
  | some _ =>
    ([], some "TypeError: update() got an unexpected keyword argument")
  | none =>
    ([Op.createBackend system_name,
      Op.createBackendUsage backend_config.path], none)

/-- `sync_backends`: the per-`BackendRef` loop, with the usage list fetched
once before it; a raised error (the `TypeError` above) aborts the remaining
backends. -/
def sync_backends_ops (environment : String) (description : Option String)
    (remote_backends : List Backend) (backend_usages : List BackendUsage)
    (backends : List BackendConfig) : List Op × Option String :=
  backends.foldl
    (fun acc backend_config =>
      match acc.2 with
      | some _ => acc
      | none =>
        let r := sync_one_backend_ops environment description remote_backends
          backend_usages backend_config
        (acc.1 ++ r.1, r.2))
    ([], none)

/-! ## Application reconciler (`sync.py` `sync_applications`, lines 177-222;
`resources/application.py`) -/

/-- `Application.create` (`resources/application.py` lines 75-115) as a trace:
the four required-parameter asserts, then the fetch by name over the full
cross-account application listing, then the conflict policy
(`delete_if_exists` > `ignore_if_exists` > raise), then the create POST.
`Application.delete` re-fetches by name before issuing its DELETE; the remote
listing is the same snapshot, so the fetch succeeds. -/
def Application.create_ops (applications : List Application)
    (account_id plan_id : Option Nat) (name description : Option String)
    (ignore_if_exists delete_if_exists : Bool) : List Op × Option String :=
  match account_id, plan_id, name, description with
  | some _, some _, some n, some _ =>
    (match applications.find? (fun a => a.name == n) with
     | some existing_application =>
       if delete_if_exists then
         match applications.find? (fun a => a.name == existing_application.name) with
         | some a => ([Op.deleteApplication a.name, Op.createApplication n], none)
         | none =>
           ([], some ("Application " ++ existing_application.name ++
              " does not exist for deletion"))
       else if ignore_if_exists then ([], none)
       else ([], some ("Application " ++ n ++ " already exists!"))
     | none => ([Op.createApplication n], none))
  | _, _, _, _ => ([], some "Required creation parameter not provided")

/-- `ApplicationPlan.create` (`resources/application.py` lines 236-266) with
its default `ignore_if_exists=True`, as used by `sync_applications`: fetch by
derived `system_name` among the service's plans, return the existing plan's id
without an op, or issue one create (the fresh server-assigned id is modelled
as 0; only its presence matters downstream). -/
def ApplicationPlan.create_ops (plans : List ApplicationPlan)
    (service_id : Nat) (name : String) : List Op × Nat :=
  let system_name := to_system_name name
  match plans.find? (fun p => p.service_id == service_id &&
      p.system_name == system_name) with
  | some existing_plan => ([], existing_plan.id)
  | none => ([Op.createApplicationPlan system_name], 0)

/-- `fetch_user_id` (`sync.py` lines 215-222) on the cached `accounts` list
passed down from `sync_config`: the id of the first account whose username
matches, or a `User ... not found.` error. -/
def fetch_user_id (accounts_list : List Account)
    (application_account : String) : Except String Nat :=
  let users := (accounts_list.filter
      (fun u => u.username == application_account)).map (fun u => u.id)
  match users with
  | [] => Except.error ("User " ++ application_account ++ " not found.")
  | user_id :: _ => Except.ok user_id

/-- The deletion pass of `sync_applications` (`sync.py` lines 180-184): the
active name list is the raw configured `name` values (`None` when unset); an
observed application attached to the product is deleted when its name is not
in that list. -/
def application_deletion_ops (applications : List Application)
    (product_id : Nat) (configApps : List ApplicationConfig) : List Op :=
  let active_applications := configApps.map (fun a => a.name)
  (applications.filter (fun application =>
      application.service_id == product_id &&
        !(active_applications.contains (some application.name)))).map
    (fun application => Op.deleteApplication application.name)

/-- The convergence pass of `sync_applications` for one `ApplicationSpec`
(`sync.py` lines 186-212), run with the account list cached by `sync_config`:
account lookup in the cache (create when absent, append-only), user-id
resolution against the same cache, name defaulting from the
`environment_systemName_vVersion` templates, plan fetch-or-create, then
`Application.create(delete_if_exists=True)`. -/
def sync_one_application_ops (environment : String)
    (product_system_name : String) (version : Nat)
    (description : Option String) (product_id : Nat)
    (accounts : List Account) (applications : List Application)
    (plans : List ApplicationPlan)
    (application_config : ApplicationConfig) : List Op × Option String :=
  let account_list :=
    accounts.filter (fun a => a.username == application_config.account)
  let account : Option Account :=
    match account_list with
    | [a] => some a
    | _ => none
  let accountOps : List Op :=
    match account with
    | none => [Op.createAccount application_config.account]
    | some _ => []
  match fetch_user_id accounts application_config.account with
  | Except.error e => (accountOps, some e)
  | Except.ok user_id =>
    let application_name :=
      match application_config.name with
      | some n => n
      | none =>
        environment ++ "_" ++ product_system_name ++ "_v" ++
          toString version ++ "_Application"
    let application_plan_name :=
      environment ++ "_" ++ product_system_name ++ "_v" ++
        toString version ++ "_AppPlan"
    let planResult :=
      ApplicationPlan.create_ops plans product_id application_plan_name
    let appResult :=
      Application.create_ops applications (some user_id) (some planResult.2)
        (some application_name) description true true
    (accountOps ++ planResult.1 ++ appResult.1, appResult.2)

/-- `sync_applications` (`sync.py` lines 177-212): the deletion pass followed
by the per-spec convergence loop; a raised error aborts the remaining specs.
The remote snapshot is held fixed across the pass (mutations are recorded as
ops, not replayed into the observed lists). -/
def sync_applications_ops (environment : String) (description : Option String)
    (product_id : Nat) (product_system_name : String) (version : Nat)
    (accounts : List Account) (applications : List Application)
    (plans : List ApplicationPlan)
    (configApps : List ApplicationConfig) : List Op × Option String :=
  let deletionOps := application_deletion_ops applications product_id configApps
  configApps.foldl
    (fun acc application_config =>
      match acc.2 with
      | some _ => acc
      | none =>
        let r := sync_one_application_ops environment product_system_name
          version description product_id accounts applications plans
          application_config
        (acc.1 ++ r.1, r.2))
    (deletionOps, none)

/-! ## Promotion (`resources/proxy.py` `Proxy.promote`, lines 158-184) -/

/-- `requests.Response.ok`: true exactly when the status code is below 400. -/
def response_ok (status_code : Nat) : Bool := status_code < 400

/-- The handling of the promote POST's response (`proxy.py` lines 176-184):
a non-ok 422 is logged and swallowed (normal return, `none`), any other
non-ok status raises a `ValueError` whose message carries the response body;
an ok response returns normally. -/
def Proxy.promote_response (service_id : Nat) (latest_version : Nat)
    (status_code : Nat) (text : String) : Option String :=
  if response_ok status_code then none
  else if status_code == 422 then none
  else
    some ("Error promoting proxy version: service_id=" ++ toString service_id ++
      ", environment=production, version=" ++ toString latest_version ++
      ", code=" ++ toString status_code ++ ", error=" ++ text)

/-! ## Product orchestrator (`sync.py` `sync_product`, lines 93-163, and
`sync_config`, lines 86-90) -/

/-- `AuthenticationType.from_string` (`proxy.py` lines 18-28) succeeds exactly
on the four mapped keys; anything else raises `KeyError`. -/
def AuthenticationType.from_string_valid (s : String) : Bool :=
  s == "app_key" || s == "app_id_key" || s == "oauth" || s == "oidc"

/-- The mutating calls of one `sync_product` run and its first raised error:
product fetch, metadata update when name/description changed, fetch-or-create
(a missing product is modelled as being created with server id 0), the
application sync, the unconditional auth update (`client.services.update`
plus the proxy PATCH), the OIDC-flow update when `oidcFlows` is a non-empty
dict, the unconditional policy-chain update, the backend sync (whose raised
error aborts the mapping sync and promotion), the mapping sync, and promotion
(one unconditional no-op proxy PATCH followed by the promote POST).  HTTP
responses are assumed successful; reads issue no ops. -/
def sync_product_ops (environment : String) (st : RemoteState)
    (accounts : List Account) (product_config : ProductConfig)
    (openapi_docs : List OpenAPIDoc) : List Op × Option String :=
  let product_name := product_config.name
  let description := product_config.description
  let version := product_config.version
  let product_system_name := to_system_name product_config.shortName
  let proxy_mappings := openapi_docs.flatMap extract_proxy_mappings
  let existing_product :=
    st.products.find? (fun p => p.system_name == product_system_name)
  let productOps : List Op :=
    match existing_product with
    | some ep =>
      if product_name != ep.name || description != ep.description then
        [Op.updateProduct ep.id product_name description]
      else []
    | none => [Op.createProduct product_system_name]
  let product : Product :=
    match existing_product with
    | some ep => ep
    | none =>
      { id := 0, name := product_name, system_name := product_system_name,
        description := description }
  let applicationResult :=
    sync_applications_ops environment description product.id
      product_system_name version accounts st.applications st.plans
      product_config.applications
  match applicationResult.2 with
  | some e => (productOps ++ applicationResult.1, some e)
  | none =>
    if !(AuthenticationType.from_string_valid product_config.api.authType) then
      (productOps ++ applicationResult.1,
        some ("Invalid authentication type: " ++ product_config.api.authType))
    else
      let proxyOps :=
        [Op.updateServiceAuth product_config.api.authType, Op.patchProxy]
      let oidcOps :=
        match product_config.api.oidcFlows with
        | some flows => if flows.isEmpty then [] else [Op.updateOIDC]
        | none => []
      let policyOps := [Op.updatePolicies]
      let backendResult :=
        sync_backends_ops environment description st.backends
          st.backend_usages product_config.backends
      match backendResult.2 with
      | some e =>
        (productOps ++ applicationResult.1 ++ proxyOps ++ oidcOps ++
          policyOps ++ backendResult.1, some e)
      | none =>
        let mappingOps :=
          sync_mappings_ops product_config.api.publicBasePath st.proxy_mappings
            proxy_mappings product_config.mappings
        let promoteOps := [Op.patchProxy, Op.promoteConfig]
        (productOps ++ applicationResult.1 ++ proxyOps ++ oidcOps ++
          policyOps ++ backendResult.1 ++ mappingOps ++ promoteOps, none)

/-- `sync_config` (`sync.py` lines 86-90): the account list is fetched once
up front, then every product is synced with that shared cache; a raised error
stops the remaining products.  Each product is paired with its parsed OpenAPI
documents. -/
def sync_config_ops (st : RemoteState) (environment : String)
    (products : List (ProductConfig × List OpenAPIDoc)) :
    List Op × Option String :=
  let accounts := st.accounts
  products.foldl
    (fun acc pc =>
      match acc.2 with
      | some _ => acc
      | none =>
        let r := sync_product_ops environment st accounts pc.1 pc.2
        (acc.1 ++ r.1, r.2))
    ([], none)

/-! ## Pre-flight validation (`config.py` `Config.validate`, lines 76-128) -/

/-- The distinct values of `xs` in first-occurrence order — the keys of
`collections.Counter(xs)`. -/
def counter_keys {α : Type} [BEq α] (xs : List α) : List α :=
  xs.foldl (fun acc x => if acc.contains x then acc else acc ++ [x]) []

/-- `[x for x, n in collections.Counter(xs).items() if n > 1]` — every value
occurring more than once, in first-occurrence order. -/
def counter_duplicates {α : Type} [BEq α] (xs : List α) : List α :=
  (counter_keys xs).filter (fun x => xs.count x > 1)

/-- A character allowed at a label boundary in `Config._is_fqdn`. -/
def is_alnum (c : Char) : Bool := c.isAlpha || c.isDigit

/-- `Config._is_fqdn`: dot-separated labels, each a single alphanumeric or an
alphanumeric-bounded run of alphanumerics and hyphens. -/
def is_fqdn (hostname : String) : Bool :=
  (hostname.splitOn ".").all (fun l =>
    match l.toList with
    | [] => false
    | [c] => is_alnum c
    | c :: rest =>
      is_alnum c && is_alnum (rest.getLastD c) &&
        (rest.dropLast.all (fun d => is_alnum d || d == '-')))

/-- Models the `urllib3.util.parse_url(...).netloc.split(':')[0]` hostname
extraction for ordinary `scheme://host[:port][/path]` URLs: drop the scheme,
take up to the first `/`, then drop a port. -/
def url_hostname (u : String) : String :=
  let after_scheme :=
    match u.splitOn "://" with
    | [only] => only
    | _ :: rest => String.intercalate "://" rest
    | [] => u
  (((after_scheme.splitOn "/").headD "").splitOn ":").headD ""

/-- The failure a `Config.validate` run raises (each variant carries the
duplicated values the code computes and reports via `logger.error`). -/
inductive ValidationFailure where
  | productShortNames (duplicated : List String)
  | backendIds (duplicated : List String)
  | applicationNames (duplicated : List (Option String))
  | backendPaths (product : String) (duplicated : List String)
  | backendHostname (hostname : String)
deriving Repr, DecidableEq

/-- `Config.validate` (`config.py` lines 76-122), with Python `len(set(xs))`
rendered as `xs.dedup.length` (the number of distinct values): the checks run
in source order and the first violated one raises, carrying the full
duplicate list it computed.  `none` means validation passed. -/
def Config.validate (products : List ProductConfig) : Option ValidationFailure :=
  let system_names := products.map (fun p => p.shortName)
  if system_names.length > 1 ∧ system_names.length ≠ system_names.dedup.length
  then some (ValidationFailure.productShortNames (counter_duplicates system_names))
  else
    let backend_names := products.flatMap (fun p => p.backends.map (fun b => b.id))
    let application_names :=
      products.flatMap (fun p => p.applications.map (fun a => a.name))
    if backend_names.length > 1 ∧
        backend_names.length ≠ backend_names.dedup.length then
      some (ValidationFailure.backendIds (counter_duplicates backend_names))
    else if application_names.length > 1 ∧
        application_names.length ≠ application_names.dedup.length then
      some (ValidationFailure.applicationNames
        (counter_duplicates application_names))
    else
      match products.find? (fun p =>
          let paths := p.backends.map (fun b => b.path)
          decide (paths.length > 1 ∧ paths.length ≠ paths.dedup.length)) with
      | some p =>
        some (ValidationFailure.backendPaths p.name
          (counter_duplicates (p.backends.map (fun b => b.path))))
      | none =>
        match (products.flatMap (fun p =>
            p.backends.map (fun b => url_hostname b.privateBaseURL))).find?
            (fun h => !(is_fqdn h)) with
        | some h => some (ValidationFailure.backendHostname h)
        | none => none

/-- Modelled from the spec: the config-set orchestrator that runs pre-flight
validation before any reconciler is not under `src/` (`main.py` never calls
`Config.validate`); per the spec a violated invariant aborts the entire sync
before any remote call is made, so a validation failure yields an empty
operation trace. -/
def run_sync_ops (st : RemoteState) (environment : String)
    (products : List (ProductConfig × List OpenAPIDoc)) :
    List Op × Option ValidationFailure :=
  match Config.validate (products.map (fun pc => pc.1)) with
  | some f => ([], some f)
  | none => ((sync_config_ops st environment products).1, none)

/-! ## Exemplar desired state and post-first-run remote state (for the
idempotence analysis) -/

/-- A desired configuration with one product owning a single explicitly named
application and nothing else: no backends, no config mappings, no OpenAPI
documents, no OIDC flows, no policy file. -/
def one_application_config (pname sname desc appname uname bp : String)
    (v : Nat) : ProductConfig :=
  { name := pname, shortName := sname, description := some desc, version := v,
    api := { publicBasePath := bp, authType := "oidc",
             credentialsLocation := "headers" },
    applications := [{ account := uname, name := some appname }] }

/-- The canonical remote state after a successful first sync of
`one_application_config`: the product exists with matching name and
description, the account exists, the application exists attached to the
product, and the default application plan exists under its derived
system name. -/
def post_first_run_state (env pname sname desc appname uname : String)
    (v pid uid aid plid : Nat) : RemoteState :=
  { products := [{ id := pid, name := pname,
                   system_name := to_system_name sname,
                   description := some desc }],
    accounts := [{ id := uid, username := uname }],
    applications := [{ id := aid, name := appname, service_id := pid,
                       account_id := uid }],
    plans := [{ id := plid,
                name := env ++ "_" ++ to_system_name sname ++ "_v" ++
                  toString v ++ "_AppPlan",
                system_name := to_system_name (env ++ "_" ++
                  to_system_name sname ++ "_v" ++ toString v ++ "_AppPlan"),
                service_id := pid }] }

/-- Two products sharing the `shortName` value `s` (uniqueness exemplar). -/
def dup_short_products : List (ProductConfig × List OpenAPIDoc) :=
  [({ name := "A", shortName := "s", description := none, version := 1,
      api := { publicBasePath := "/", authType := "oidc",
               credentialsLocation := "headers" } }, []),
   ({ name := "B", shortName := "s", description := none, version := 1,
      api := { publicBasePath := "/", authType := "oidc",
               credentialsLocation := "headers" } }, [])]

/-- One product with two application specs that both omit the optional name
(defaulted-name exemplar). -/
def two_unnamed_apps_products : List ProductConfig :=
  [{ name := "A", shortName := "s1", description := none, version := 1,
     api := { publicBasePath := "/", authType := "oidc",
              credentialsLocation := "headers" },
     applications := [{ account := "u1" }, { account := "u2" }] }]

/-! ## Helper lemmas -/

/-- Unfolding the `counter_keys` fold: its members are those of the seed
accumulator together with those of the remaining input. -/
theorem mem_counter_keys_aux {α : Type} [BEq α] [LawfulBEq α] (a : α) :
    ∀ (xs acc : List α),
      a ∈ xs.foldl
          (fun acc x => if acc.contains x then acc else acc ++ [x]) acc ↔
        a ∈ acc ∨ a ∈ xs
  | [], acc => by simp
  | x :: xs, acc => by
    rw [List.foldl_cons, mem_counter_keys_aux a xs]
    by_cases hx : x ∈ acc
    · rw [if_pos (by simpa [List.contains] using hx), List.mem_cons]
      constructor
      · rintro (h | h)
        · exact Or.inl h
        · exact Or.inr (Or.inr h)
      · rintro (h | rfl | h)
        · exact Or.inl h
        · exact Or.inl hx
        · exact Or.inr h
    · rw [if_neg (by simpa [List.contains] using hx), List.mem_append,
        List.mem_singleton, List.mem_cons, or_assoc]

/-- Membership in `counter_keys` is membership in the underlying list. -/
theorem mem_counter_keys {α : Type} [BEq α] [LawfulBEq α] (a : α)
    (xs : List α) : a ∈ counter_keys xs ↔ a ∈ xs := by
  rw [counter_keys, mem_counter_keys_aux a xs]
  simp

/-- A list containing some value at least twice is not duplicate-free. -/
theorem not_nodup_of_two_le_count {α : Type} [BEq α] [LawfulBEq α]
    {v : α} {xs : List α} (h : 2 ≤ xs.count v) : ¬ xs.Nodup := by
  induction xs with
  | nil => simp at h
  | cons x t ih =>
    intro hnd
    rcases List.nodup_cons.1 hnd with ⟨hx, ht⟩
    by_cases hvx : v = x
    · subst hvx
      rw [List.count_cons_self] at h
      exact hx (List.count_pos_iff.1 (by omega))
    · rw [List.count_cons_of_ne hvx] at h
      exact ih h ht

/-- A list containing a value at least twice has strictly fewer distinct
values than elements, so Python's `len(names) != len(set(names))` holds. -/
theorem length_ne_dedup_length_of_two_le_count {α : Type} [BEq α]
    [LawfulBEq α] [DecidableEq α] {xs : List α} {v : α}
    (h : 2 ≤ xs.count v) : xs.length ≠ xs.dedup.length := by
  intro hlen
  have hd : xs.dedup = xs := (xs.dedup_sublist).eq_of_length hlen.symm
  exact not_nodup_of_two_le_count h (hd ▸ xs.nodup_dedup)

/-- Any value occurring at least twice is in the computed duplicate report. -/
theorem mem_counter_duplicates_of_two_le_count {α : Type} [BEq α]
    [LawfulBEq α] {xs : List α} {v : α} (h : 2 ≤ xs.count v) :
    v ∈ counter_duplicates xs := by
  have hmem : v ∈ xs := List.count_pos_iff.1 (by omega)
  exact List.mem_filter.2 ⟨(mem_counter_keys v xs).2 hmem, by
    simp only [decide_eq_true_eq]; omega⟩

/-! ## Claim theorems -/

/-- C2: evaluating the mapping deletion pass of `sync_mappings` on the spec's
own convergence example — observed rules `(GET,/v1/foo$)` (id 1) and
`(GET,/v1/bar$)` (id 2), desired rules `(GET,/v1/foo$)` and `(POST,/v1/foo$)`
— the code deletes BOTH observed rules (each fails to equal some desired
mapping, which clears `should_be_active`), then recreates `(GET,/v1/foo$)`,
instead of deleting exactly `(GET,/v1/bar$)` and leaving `(GET,/v1/foo$)`
untouched as the claim states. -/
theorem c2_deletion_pass_eval :
    sync_mappings_ops ""
        [{ id := 1, http_method := "GET", pattern := "/v1/foo$" },
         { id := 2, http_method := "GET", pattern := "/v1/bar$" }]
        [{ http_method := "GET", pattern := "/v1/foo$" },
         { http_method := "POST", pattern := "/v1/foo$" }] [] =
      [Op.deleteMapping 1, Op.deleteMapping 2,
       Op.createMapping "GET" "/v1/foo$",
       Op.createMapping "POST" "/v1/foo$"] := by
  decide

/-- C3 counterexample: an observed application carrying exactly the defaulted
name `dev_prod_v1_Application` of an `ApplicationSpec` that omits `name` IS
deleted by the deletion pass, because the pass compares against the raw
configured names (here `None`), never the defaulted name — refuting the claim
that such an application is not deleted. -/
theorem c3_counterexample :
    Op.deleteApplication ("dev" ++ "_" ++ "prod" ++ "_v" ++ toString 1 ++
        "_Application") ∈
      application_deletion_ops
        [{ id := 1, name := "dev_prod_v1_Application", service_id := 7,
           account_id := 3 }] 7 [{ account := "alice" }] := by
  decide

/-- C4 counterexample: a config-declared mapping `(GET, /cfg)` under
`publicBasePath = "/api/"` is created with its pattern sent verbatim —
`/cfg` — which is not prefixed with the base path and carries no `$`
end-anchor, refuting the claim that every desired mapping is sent prefixed
and anchored. -/
theorem c4_counterexample :
    sync_mappings_ops "/api/" [] [] [{ method := "GET", pattern := "/cfg" }] =
        [Op.createMapping "GET" "/cfg"] ∧
      "/cfg" ≠ "/api/" ++ "/cfg" ++ "$" ∧ (ends_with "/cfg" "$" = false) ∧
      (starts_with "/cfg" "/api/" = false) := by
  decide

/-- C1 counterexample: a second full reconciliation run against the unchanged
post-first-run remote state still issues mutating calls — in particular the
application reconciler deletes the already-matching application (and then
recreates it), because `Application.create` is always called with
`delete_if_exists=True`. -/
theorem c1_counterexample :
    Op.deleteApplication "app1" ∈
      (sync_config_ops
        (post_first_run_state "dev" "P" "p-1" "D" "app1" "alice" 1 5 3 9 11)
        "dev"
        [(one_application_config "P" "p-1" "D" "app1" "alice" "/api/" 1,
          [])]).1 := by
  decide

/-- C6: whenever `Application.create` (as called by the reconciler with
`delete_if_exists=True`) finds an application with the same name, it issues
exactly one delete call followed by exactly one create call, and raises no
duplicate-exists error. -/
theorem c6_delete_then_recreate (applications : List Application) (n : String)
    (uid plid : Nat) (d : String) (a : Application)
    (h : applications.find? (fun x => x.name == n) = some a) :
    Application.create_ops applications (some uid) (some plid) (some n)
        (some d) true true =
      ([Op.deleteApplication n, Op.createApplication n], none) := by
  have hn : a.name = n := by
    have hp := List.find?_some h
    simpa using hp
  simp [Application.create_ops, h, hn]

/-- C6 witness: a concrete collision — the application `app1` already exists,
and the reconciler's create issues exactly `[delete app1, create app1]` with
no error. -/
theorem c6_witness :
    ([Application.mk 9 "app1" 5 3].find? (fun x => x.name == "app1") =
        some (Application.mk 9 "app1" 5 3)) ∧
      Application.create_ops [Application.mk 9 "app1" 5 3] (some 3) (some 11)
          (some "app1") (some "D") true true =
        ([Op.deleteApplication "app1", Op.createApplication "app1"], none) :=
  ⟨by decide,
   c6_delete_then_recreate [Application.mk 9 "app1" 5 3] "app1" 3 11 "D"
     (Application.mk 9 "app1" 5 3) (by decide)⟩

/-- C7: the promote response handling returns normally on a 422 status for
any body, and for every other non-success status it raises an error whose
message carries the response body. -/
theorem c7_promote_status_handling (service_id latest_version : Nat) :
    (∀ text, Proxy.promote_response service_id latest_version 422 text =
      none) ∧
    ∀ status_code text, response_ok status_code = false → status_code ≠ 422 →
      ∃ p, Proxy.promote_response service_id latest_version status_code text =
        some (p ++ text) := by
  constructor
  · intro text
    simp [Proxy.promote_response, response_ok]
  · intro s t hok hne
    refine ⟨"Error promoting proxy version: service_id=" ++
      toString service_id ++ ", environment=production, version=" ++
      toString latest_version ++ ", code=" ++ toString s ++ ", error=", ?_⟩
    simp only [response_ok, decide_eq_false_iff_not, Nat.not_lt] at hok
    simp [Proxy.promote_response, response_ok, Nat.not_lt.2 hok, hne]

/-- C7 witness: status 500 with body `boom` is non-success and distinct from
422, and the raised error message carries `boom`. -/
theorem c7_witness :
    (response_ok 500 = false) ∧ (500 : Nat) ≠ 422 ∧
      ∃ p, Proxy.promote_response 1 2 500 "boom" = some (p ++ "boom") :=
  ⟨by decide, by decide,
   (c7_promote_status_handling 1 2).2 500 "boom" (by decide) (by decide)⟩

/-- C9: when the account username of an `ApplicationSpec` is absent from the
account list cached by `sync_config`, the convergence pass creates the
missing account but then resolves the user id against the same stale cache,
so it stops with the `User ... not found.` error and never reaches the
application create. -/
theorem c9_stale_account_cache (environment product_system_name : String)
    (version : Nat) (description : Option String) (product_id : Nat)
    (accounts : List Account) (applications : List Application)
    (plans : List ApplicationPlan) (application_config : ApplicationConfig)
    (h : ∀ a ∈ accounts, a.username ≠ application_config.account) :
    sync_one_application_ops environment product_system_name version
        description product_id accounts applications plans
        application_config =
      ([Op.createAccount application_config.account],
        some ("User " ++ application_config.account ++ " not found.")) := by
  have hf : accounts.filter
      (fun a => a.username == application_config.account) = [] := by
    rw [List.filter_eq_nil_iff]
    intro a ha
    simp [h a ha]
  simp [sync_one_application_ops, fetch_user_id, hf]

/-- C9 witness: the cache holds only `bob`, the spec references `alice`; the
run creates the account, then fails with `User alice not found.` and creates
no application. -/
theorem c9_witness :
    (∀ a ∈ [Account.mk 1 "bob"], a.username ≠ "alice") ∧
      sync_one_application_ops "dev" "p_1" 1 (some "D") 5 [Account.mk 1 "bob"]
          [] [] { account := "alice" } =
        ([Op.createAccount "alice"], some ("User " ++ "alice" ++
          " not found.")) :=
  ⟨by decide,
   c9_stale_account_cache "dev" "p_1" 1 (some "D") 5 [Account.mk 1 "bob"] [] []
     { account := "alice" } (by decide)⟩

/-- C3 amended: an observed application attached to the product is deleted by
the deletion pass iff its name equals none of the RAW configured `name`
values of the `ApplicationSpec`s — unset names contribute `None` and protect
nothing; the defaulted names are never consulted by this pass. -/
theorem c3_amended (applications : List Application) (product_id : Nat)
    (configApps : List ApplicationConfig) (n : String) :
    Op.deleteApplication n ∈
        application_deletion_ops applications product_id configApps ↔
      ∃ a ∈ applications, a.name = n ∧ a.service_id = product_id ∧
        ∀ c ∈ configApps, c.name ≠ some n := by
  simp only [application_deletion_ops, List.mem_map, List.mem_filter,
    Bool.and_eq_true, beq_iff_eq, Bool.not_eq_true', Op.deleteApplication.injEq,
    List.contains, List.elem_eq_mem, decide_eq_false_iff_not, List.mem_map]
  constructor
  · rintro ⟨a, ⟨ha, hsid, hcontains⟩, rfl⟩
    refine ⟨a, ha, rfl, hsid, ?_⟩
    intro c hc hcn
    exact hcontains ⟨c, hc, hcn⟩
  · rintro ⟨a, ha, rfl, hsid, hnone⟩
    refine ⟨a, ⟨ha, hsid, ?_⟩, rfl⟩
    rintro ⟨c, hc, hcn⟩
    exact hnone c hc hcn

/-- C3 amended witness: concretely, the application `legacy` attached to
product 7 is deleted because no spec's raw configured name is `legacy`. -/
theorem c3_amended_witness :
    Op.deleteApplication "legacy" ∈
      application_deletion_ops
        [{ id := 1, name := "legacy", service_id := 7, account_id := 3 }] 7
        [{ account := "alice" }] :=
  (c3_amended
      [{ id := 1, name := "legacy", service_id := 7, account_id := 3 }] 7
      [{ account := "alice" }] "legacy").2
    ⟨{ id := 1, name := "legacy", service_id := 7, account_id := 3 },
      by decide, rfl, rfl, by decide⟩

/-- C4 amended: every mapping-rule create issued by `sync_mappings` either
comes from the OpenAPI-derived list — in which case the pattern sent is the
product's `publicBasePath` prepended to the derived pattern, which itself
ends in the `$` anchor — or from a config-declared mapping, in which case the
configured pattern is sent verbatim (no prefix, no anchor appended). -/
theorem c4_amended (publicBasePath : String) (observed : List ProxyMapping)
    (docs : List OpenAPIDoc) (cfgs : List MappingConfig) :
    (∀ m p, Op.createMapping m p ∈
        sync_mappings_ops publicBasePath observed
          (docs.flatMap extract_proxy_mappings) cfgs →
      (∃ pm ∈ docs.flatMap extract_proxy_mappings,
          m = pm.http_method ∧ p = publicBasePath ++ pm.pattern) ∨
      ∃ mc ∈ cfgs, m = mc.method ∧ p = mc.pattern) ∧
    ∀ pm ∈ docs.flatMap extract_proxy_mappings, ∃ s, pm.pattern = s ++ "$" := by
  constructor
  · intro m p hmem
    simp only [sync_mappings_ops] at hmem
    rcases List.mem_append.1 hmem with hleft | hcfg
    · rcases List.mem_append.1 hleft with hdel | hopen
      · rcases List.mem_map.1 hdel with ⟨a, _, hbad⟩
        cases hbad
      · rcases List.mem_filterMap.1 hopen with ⟨x, hx, hsome⟩
        left
        simp only [Option.ite_none_left_eq_some, Option.some.injEq,
          Op.createMapping.injEq] at hsome
        exact ⟨x, hx, hsome.2.1.symm, hsome.2.2.symm⟩
    · right
      by_cases hemp : cfgs.isEmpty = true
      · rw [if_pos hemp] at hcfg
        exact absurd hcfg (List.not_mem_nil _)
      · rw [if_neg hemp] at hcfg
        rcases List.mem_filterMap.1 hcfg with ⟨mc, hmc, hsome⟩
        simp only [Option.ite_none_left_eq_some, Option.some.injEq,
          Op.createMapping.injEq] at hsome
        exact ⟨mc, hmc, hsome.2.1.symm, hsome.2.2.symm⟩
  · intro pm hpm
    rcases List.mem_flatMap.1 hpm with ⟨doc, _, hpm2⟩
    simp only [extract_proxy_mappings, List.mem_flatMap, List.mem_map] at hpm2
    rcases hpm2 with ⟨pd, _, mth, _, rfl⟩
    exact ⟨_, rfl⟩

/-- C4 amended witness: the mapping extracted from a concrete swagger-2
document with `basePath /v1` and path `/foo` is `(GET, /v1/foo$)`, whose
pattern carries the `$` end-anchor. -/
theorem c4_amended_witness :
    (ProxyMapping.mk 0 "GET" "/v1/foo$" ∈
        [OpenAPIDoc.mk "2.0" (some "/v1") [("/foo", ["get"])]].flatMap
          extract_proxy_mappings) ∧
      ∃ s, (ProxyMapping.mk 0 "GET" "/v1/foo$").pattern = s ++ "$" :=
  ⟨by decide,
   (c4_amended "/api/" []
       [OpenAPIDoc.mk "2.0" (some "/v1") [("/foo", ["get"])]] []).2
     (ProxyMapping.mk 0 "GET" "/v1/foo$") (by decide)⟩

/-- C5: evaluating the backend reconciler on a `BackendRef` whose derived
system name `dev_b1_backend` already exists remotely — once with matching
description and private endpoint, once with both differing.  In both cases
the code reaches `existing_backend.update(c, **dict(name=...,
description=..., private_endpoint=...))` (`sync.py` line 254), but
`Backend.update` is declared `def update(self, client)` (`backend.py` line
70) and accepts no keyword arguments, so Python raises `TypeError`: no
update remote call is issued, the backend-usage join is never reconciled,
and the product sync aborts — instead of the claim's fetch-or-update with no
hard error. -/
theorem c5_backend_exists_eval :
    (sync_one_backend_ops "dev" (some "d")
        [{ id := 10, name := "dev_b1_backend", system_name := "dev_b1_backend",
           description := some "d",
           private_endpoint := "https://api.example.com" }] []
        { id := "b1", privateBaseURL := "https://api.example.com",
          path := "/" } =
      ([], some "TypeError: update() got an unexpected keyword argument")) ∧
    (sync_one_backend_ops "dev" (some "d")
        [{ id := 10, name := "dev_b1_backend", system_name := "dev_b1_backend",
           description := some "old",
           private_endpoint := "https://old.example.com" }] []
        { id := "b1", privateBaseURL := "https://api.example.com",
          path := "/" } =
      ([], some "TypeError: update() got an unexpected keyword argument")) := by
  decide

/-- C8: when some `shortName` occurs at least twice across the desired
products, the orchestrated run fails pre-flight with the short-name
uniqueness failure, issues NO remote call, and the duplicate list it reports
contains every value that occurs more than once (not just the first). -/
theorem c8_duplicate_short_names (st : RemoteState) (environment : String)
    (products : List (ProductConfig × List OpenAPIDoc)) (v : String)
    (h : 2 ≤ ((products.map (fun pc => pc.1)).map
        (fun p => p.shortName)).count v) :
    run_sync_ops st environment products =
      ([], some (ValidationFailure.productShortNames
        (counter_duplicates ((products.map (fun pc => pc.1)).map
          (fun p => p.shortName))))) ∧
    ∀ w, 2 ≤ ((products.map (fun pc => pc.1)).map
        (fun p => p.shortName)).count w →
      w ∈ counter_duplicates ((products.map (fun pc => pc.1)).map
        (fun p => p.shortName)) := by
  have hne := length_ne_dedup_length_of_two_le_count h
  have hlen : 1 < ((products.map (fun pc => pc.1)).map
      (fun p => p.shortName)).length := by
    have hc := List.count_le_length v
      ((products.map (fun pc => pc.1)).map (fun p => p.shortName))
    omega
  refine ⟨?_, fun w hw => mem_counter_duplicates_of_two_le_count hw⟩
  simp only [run_sync_ops, Config.validate]
  rw [if_pos ⟨hlen, hne⟩]

/-- C8 witness: two products sharing `shortName` `s` — the run issues no
remote call, fails with the short-name failure, and `s` is reported. -/
theorem c8_witness :
    (2 ≤ ((dup_short_products.map (fun pc => pc.1)).map
        (fun p => p.shortName)).count "s") ∧
      run_sync_ops {} "dev" dup_short_products =
        ([], some (ValidationFailure.productShortNames ["s"])) :=
  ⟨by decide, by
    rw [(c8_duplicate_short_names {} "dev" dup_short_products "s"
      (by decide)).1]
    decide⟩

/-- C10: when at least two `ApplicationSpec`s across all products omit the
optional name (and the earlier short-name and backend-id checks pass, which
would otherwise raise first), `Config.validate` raises the
duplicate-application-names failure, because the unset names are collected as
identical `None` values — and `None` itself appears in the reported
duplicate list. -/
theorem c10_unset_names_collide (products : List ProductConfig)
    (h1 : (products.map (fun p => p.shortName)).Nodup)
    (h2 : (products.flatMap (fun p => p.backends.map (fun b => b.id))).Nodup)
    (h : 2 ≤ (products.flatMap
        (fun p => p.applications.map (fun a => a.name))).count
        (none : Option String)) :
    Config.validate products =
      some (ValidationFailure.applicationNames (counter_duplicates
        (products.flatMap (fun p => p.applications.map (fun a => a.name))))) ∧
    (none : Option String) ∈ counter_duplicates
      (products.flatMap (fun p => p.applications.map (fun a => a.name))) := by
  have hd1 := List.dedup_eq_self.2 h1
  have hd2 := List.dedup_eq_self.2 h2
  have hne := length_ne_dedup_length_of_two_le_count h
  have hlen : 1 < (products.flatMap
      (fun p => p.applications.map (fun a => a.name))).length := by
    have hc := List.count_le_length (none : Option String)
      (products.flatMap (fun p => p.applications.map (fun a => a.name)))
    omega
  refine ⟨?_, mem_counter_duplicates_of_two_le_count h⟩
  simp only [Config.validate]
  rw [if_neg (fun hc => hc.2 (congrArg List.length hd1).symm),
    if_neg (fun hc => hc.2 (congrArg List.length hd2).symm),
    if_pos ⟨hlen, hne⟩]

/-- C10 witness: one product with two unnamed application specs fails
validation with the duplicate-application-names failure reporting `None`. -/
theorem c10_witness :
    Config.validate two_unnamed_apps_products =
      some (ValidationFailure.applicationNames [none]) := by
  rw [(c10_unset_names_collide two_unnamed_apps_products
    (by decide) (by decide) (by decide)).1]
  decide

/-- C1 amended: for every configuration of the exemplar family (one product,
one explicitly named application, no backends/mappings/OpenAPI/OIDC/policy
file) whose remote state already matches the desired state, the second
reconciliation run is NOT mutation-free: it issues exactly one application
delete followed by one application create (delete-then-recreate on every
run), the unconditional service auth update, proxy patch, policy-chain
update, promotion no-op patch and promote POST — and no product create or
update, no plan create, and no backend or mapping mutation. -/
theorem c1_amended (env pname sname desc appname uname bp : String)
    (v pid uid aid plid : Nat) :
    sync_config_ops
        (post_first_run_state env pname sname desc appname uname v pid uid
          aid plid)
        env
        [(one_application_config pname sname desc appname uname bp v, [])] =
      ([Op.deleteApplication appname, Op.createApplication appname,
        Op.updateServiceAuth "oidc", Op.patchProxy, Op.updatePolicies,
        Op.patchProxy, Op.promoteConfig], none) := by
  simp [sync_config_ops, sync_product_ops, one_application_config,
    post_first_run_state, sync_applications_ops, application_deletion_ops,
    sync_one_application_ops, fetch_user_id, ApplicationPlan.create_ops,
    Application.create_ops, sync_backends_ops, sync_mappings_ops,
    AuthenticationType.from_string_valid, extract_proxy_mappings]

end ThreeScaleSync
